import Mathlib

/-!
Verification of the observability core of the POC payment system
(shared/cloudWatchLogger.js, shared/structuredLogger.js, the Fastify
hooks in mock-backend/server.js and the HTTP logging middleware).

JavaScript values relevant to the claims are strings, null and
undefined; objects are modelled as ordered lists of property writes
(later writes win, matching object-literal spread and property
assignment), and JSON rendering keeps first-write key order while
dropping undefined-valued properties, as JSON.stringify does.
-/

namespace PocObs

/-- A JavaScript string-or-missing value: undefined, null, or a string. -/
inductive JsStr where
  | undef
  | null
  | str (s : String)
deriving DecidableEq, Repr

/-- JavaScript truthiness restricted to JsStr: undefined, null and the
empty string are falsy. -/
def truthy : JsStr → Bool
  | .undef => false
  | .null => false
  | .str s => !(s == "")

/-- A JavaScript object as an ordered list of property writes. -/
abbrev Obj := List (String × JsStr)

/-- Property lookup: the value of the last write of the key, if any
(matching JavaScript overwrite semantics). -/
def jsGet : Obj → String → Option JsStr
  | [], _ => none
  | p :: rest, k =>
    match jsGet rest k with
    | some v => some v
    | none => if p.1 == k then some p.2 else none

/-- JavaScript property access: a missing property reads as undefined. -/
def jsIdx (o : Obj) (k : String) : JsStr :=
  (jsGet o k).getD .undef

theorem jsGet_append (a b : Obj) (k : String) :
    jsGet (a ++ b) k =
      (match jsGet b k with
       | some v => some v
       | none => jsGet a k) := by
  induction a with
  | nil => cases h : jsGet b k <;> simp [jsGet, h]
  | cons p a ih =>
    simp only [List.cons_append, jsGet, List.append_eq]
    rw [ih]
    cases jsGet b k <;> cases jsGet a k <;> simp

/-- Keys of an object in first-write order, without repetition. -/
def keysIn : Obj → List String
  | [] => []
  | (k, _) :: rest => k :: (keysIn rest).filter (fun k2 => !(k2 == k))

/-- Rendering of one JsStr value as JSON; undefined renders as nothing
(the property is dropped), mirroring JSON.stringify.  String escaping is
not modelled; the claims only involve escape-free strings. -/
def renderJsStr : JsStr → Option String
  | .undef => none
  | .null => some "null"
  | .str s => some ("\"" ++ s ++ "\"")

/-- JSON.stringify over the object model: first-write key order, final
value per key, undefined-valued properties dropped. -/
def jsonStringify (o : Obj) : String :=
  "\x7b" ++
    String.intercalate ","
      ((keysIn o).filterMap (fun k =>
        match jsGet o k with
        | some v => (renderJsStr v).map (fun rv => "\"" ++ k ++ "\":" ++ rv)
        | none => none)) ++
  "\x7d"

/-- Whether a property appears in the JSON rendering of the object
(present and not undefined). -/
def presentInJson (o : Obj) (k : String) : Bool :=
  match jsGet o k with
  | some .undef => false
  | some _ => true
  | none => false

/-- The module-level execution context of cloudWatchLogger.js:
currentCorrelationId, currentRequestId, currentUserId. -/
structure Store where
  correlationId : JsStr
  requestId : JsStr
  userId : JsStr
deriving DecidableEq, Repr

/-- All three module variables start as null. -/
def initialStore : Store := ⟨.null, .null, .null⟩

/-- setCorrelationId from cloudWatchLogger.js: plain replacement. -/
def setCorrelationId (st : Store) (id : JsStr) : Store :=
  { st with correlationId := id }

/-- getCorrelationId from cloudWatchLogger.js. -/
def getCorrelationId (st : Store) : JsStr :=
  st.correlationId

/-- setRequestId from cloudWatchLogger.js. -/
def setRequestId (st : Store) (id : JsStr) : Store :=
  { st with requestId := id }

/-- getRequestId from cloudWatchLogger.js. -/
def getRequestId (st : Store) : JsStr :=
  st.requestId

/-- setUserId from cloudWatchLogger.js. -/
def setUserId (st : Store) (id : JsStr) : Store :=
  { st with userId := id }

/-- getUserId from cloudWatchLogger.js. -/
def getUserId (st : Store) : JsStr :=
  st.userId

/-- contextFormat from cloudWatchLogger.js: mutates the winston info
object, writing correlationId unconditionally from the store, requestId
and userId only when truthy, and a fresh timestamp.  Metadata values are
modelled as JsStr, on which the Error-instance branch (which only adds
stack fields) cannot fire. -/
def contextFormat (store : Store) (now : String) (info : Obj) : Obj :=
  info ++ [("correlationId", store.correlationId)]
    ++ (if truthy store.requestId then [("requestId", store.requestId)] else [])
    ++ (if truthy store.userId then [("userId", store.userId)] else [])
    ++ [("timestamp", .str now)]

theorem contextFormat_correlationId (store : Store) (now : String) (info : Obj) :
    jsGet (contextFormat store now info) "correlationId" = some store.correlationId := by
  by_cases hr : truthy store.requestId = true <;>
    by_cases hu : truthy store.userId = true <;>
      simp [contextFormat, jsGet_append, jsGet, hr, hu]

theorem contextFormat_requestId (store : Store) (now : String) (info : Obj) :
    jsGet (contextFormat store now info) "requestId" =
      (if truthy store.requestId then some store.requestId else jsGet info "requestId") := by
  by_cases hr : truthy store.requestId = true
  all_goals by_cases hu : truthy store.userId = true
  all_goals simp [contextFormat, jsGet_append, jsGet, hr, hu]

theorem contextFormat_userId (store : Store) (now : String) (info : Obj) :
    jsGet (contextFormat store now info) "userId" =
      (if truthy store.userId then some store.userId else jsGet info "userId") := by
  by_cases hr : truthy store.requestId = true
  all_goals by_cases hu : truthy store.userId = true
  all_goals simp [contextFormat, jsGet_append, jsGet, hr, hu]

/-- Whether needle occurs at the start of hay (character lists). -/
def hasPfx : List Char → List Char → Bool
  | [], _ => true
  | _ :: _, [] => false
  | n :: ns, h :: hs => n == h && hasPfx ns hs

/-- Whether needle occurs anywhere inside hay (character lists). -/
def hasSub (needle : List Char) : List Char → Bool
  | [] => needle.isEmpty
  | h :: hs => hasPfx needle (h :: hs) || hasSub needle hs

/-- String.prototype.includes: substring containment. -/
def containsSub (needle hay : String) : Bool :=
  hasSub needle.toList hay.toList

/-- The stale-token test of logToCloudWatch:
error.message.includes("InvalidSequenceTokenException"). -/
def isStaleMsg (msg : String) : Bool :=
  containsSub "InvalidSequenceTokenException" msg

/-- An error thrown by a remote SDK call; only its message is inspected
by the code. -/
structure JsError where
  message : String
deriving DecidableEq, Repr

/-- Recognized environment configuration of cloudWatchLogger.js.
logStreamName models the module-load constant
LOG_STREAM_NAME = stream-Date.now(), fixed per process run. -/
structure Env where
  cloudwatchEnabled : Option String
  logLevel : Option String
  awsEnvironment : Option String
  logStreamName : String
deriving DecidableEq, Repr

/-- The guard process.env.CLOUDWATCH_ENABLED === "true". -/
def cwEnabled (env : Env) : Bool :=
  env.cloudwatchEnabled == some "true"

/-- LOG_GROUP_NAME from cloudWatchLogger.js. -/
def LOG_GROUP_NAME : String := "/local/poc-payment-system"

/-- The four log levels of logToCloudWatch. -/
inductive LogLevel where
  | ERROR
  | WARN
  | INFO
  | DEBUG
deriving DecidableEq, Repr

/-- The string name the JavaScript code passes for each level. -/
def levelName : LogLevel → String
  | .ERROR => "ERROR"
  | .WARN => "WARN"
  | .INFO => "INFO"
  | .DEBUG => "DEBUG"

/-- The levels object of logToCloudWatch:
ERROR 0, WARN 1, INFO 2, DEBUG 3; any other key reads as undefined. -/
def levelsVal (s : String) : Option Nat :=
  if s == "ERROR" then some 0
  else if s == "WARN" then some 1
  else if s == "INFO" then some 2
  else if s == "DEBUG" then some 3
  else none

/-- Severity rank of a level under the levels object. -/
def levNum : LogLevel → Nat
  | .ERROR => 0
  | .WARN => 1
  | .INFO => 2
  | .DEBUG => 3

theorem levelsVal_levelName (l : LogLevel) : levelsVal (levelName l) = some (levNum l) := by
  cases l <;> rfl

/-- The JavaScript comparison a > b on possibly-undefined numbers:
false whenever either side is undefined. -/
def jsGtNat : Option Nat → Option Nat → Bool
  | some a, some b => decide (b < a)
  | _, _ => false

theorem jsGtNat_err (x : Option Nat) : jsGtNat (some 0) x = false := by
  cases x with
  | none => rfl
  | some b => simp [jsGtNat]

/-- One log stream descriptor as returned by DescribeLogStreams. -/
structure StreamDesc where
  uploadSequenceToken : JsStr
deriving DecidableEq, Repr

/-- The DescribeLogStreams response; logStreams may be absent. -/
structure DescribeResult where
  logStreams : Option (List StreamDesc)
deriving DecidableEq, Repr

/-- The remote CloudWatch transport: the outcome each SDK call would
have during one emission.  Each operation is called at most once per
emission, so a fixed outcome per operation is fully general. -/
structure Transport where
  createLogGroup : Except JsError Unit
  createLogStream : Except JsError Unit
  putLogEvents : Except JsError Unit
  describeLogStreams : Except JsError DescribeResult
  putMetricData : Except JsError Unit

deriving instance DecidableEq for Except

/-- Whether an SDK outcome is a thrown error. -/
def isErr {α : Type} : Except JsError α → Bool
  | .error _ => true
  | .ok _ => false

/-- Every remote transport operation raises. -/
def failsAll (tr : Transport) : Bool :=
  isErr tr.createLogGroup && isErr tr.createLogStream && isErr tr.putLogEvents
    && isErr tr.describeLogStreams && isErr tr.putMetricData

/-- The module state of cloudWatchLogger.js: logStreamReady and
nextSequenceToken. -/
structure CWState where
  logStreamReady : Bool
  nextSequenceToken : JsStr
deriving DecidableEq, Repr

/-- Module-load state: stream not ready, token null. -/
def initialCWState : CWState := ⟨false, .null⟩

/-- A remote SDK call actually issued during an emission. -/
inductive RemoteCall where
  | createLogGroup
  | createLogStream
  | putLogEvents (entry : String) (token : JsStr)
  | describeLogStreams
  | putMetricData (name : String) (value : Int) (unit : String)
      (dims : List (String × String))
deriving DecidableEq, Repr

/-- A local console line: stdout (console.log) or stderr (console.error). -/
inductive ConsoleLine where
  | out (s : String)
  | err (s : String)
deriving DecidableEq, Repr

/-- Stderr diagnostic lines. -/
def isErrLine : ConsoleLine → Bool
  | .err _ => true
  | .out _ => false

/-- Texts of the stdout lines, in order. -/
def outTexts (lines : List ConsoleLine) : List String :=
  lines.filterMap fun l =>
    match l with
    | .out s => some s
    | .err _ => none

/-- Remote log-append attempts (PutLogEvents). -/
def isPutCall : RemoteCall → Bool
  | .putLogEvents _ _ => true
  | _ => false

/-- Stream descriptor queries (DescribeLogStreams). -/
def isDescribeCall : RemoteCall → Bool
  | .describeLogStreams => true
  | _ => false

/-- Result of initializeLogStream: new module state, console lines,
remote calls issued. -/
structure InitResult where
  state : CWState
  lines : List ConsoleLine
  calls : List RemoteCall
deriving DecidableEq, Repr

/-- initializeLogStream from cloudWatchLogger.js.  Both create calls
are wrapped in inner try/catch blocks that swallow failures, after
which logStreamReady is set; the outer catch can therefore never fire
and the function never throws. -/
def initLogStream (env : Env) (tr : Transport) (st : CWState) : InitResult :=
  if cwEnabled env = false then ⟨st, [], []⟩
  else if st.logStreamReady then ⟨st, [], []⟩
  else
    let l1 : List ConsoleLine :=
      match tr.createLogGroup with
      | .ok _ => [.out ("[CW] Created log group: " ++ LOG_GROUP_NAME)]
      | .error _ => []
    let l2 : List ConsoleLine :=
      match tr.createLogStream with
      | .ok _ => [.out ("[CW] Created log stream: " ++ env.logStreamName)]
      | .error _ => []
    ⟨{ st with logStreamReady := true }, l1 ++ l2,
      [.createLogGroup, .createLogStream]⟩

/-- Result of one logToCloudWatch call: the value of the settled
promise (ok unless an exception escaped), new module state, console
lines and remote calls in order. -/
structure LogResult where
  result : Except JsError Unit
  state : CWState
  lines : List ConsoleLine
  calls : List RemoteCall
deriving DecidableEq, Repr

/-- The stdout record object of logToCloudWatch:
JSON.stringify of timestamp, level, message, spread metadata. -/
def consoleLogObj (now : String) (level : LogLevel) (message : String)
    (metadata : Obj) : Obj :=
  [("timestamp", .str now), ("level", .str (levelName level)),
    ("message", .str message)] ++ metadata

/-- logToCloudWatch from cloudWatchLogger.js: always writes the JSON
record to stdout; ships to CloudWatch only when CLOUDWATCH_ENABLED is
"true" and the level passes the LOG_LEVEL gate; lazily initializes the
stream; on a stale-sequence-token failure clears the token, queries
DescribeLogStreams once and adopts the returned token, never re-sending
the record; every failure ends as a stderr diagnostic, never a thrown
exception. -/
def logToCloudWatch (env : Env) (tr : Transport) (now : String) (st : CWState)
    (level : LogLevel) (message : String) (metadata : Obj) : LogResult :=
  let logLevel := env.logLevel.getD "INFO"
  let logEntry := jsonStringify (consoleLogObj now level message metadata)
  if cwEnabled env = false then ⟨.ok (), st, [.out logEntry], []⟩
  else if jsGtNat (levelsVal (levelName level)) (levelsVal logLevel) then
    ⟨.ok (), st, [.out logEntry], []⟩
  else
    let ini := if st.logStreamReady = false then initLogStream env tr st
      else ⟨st, [], []⟩
    if ini.state.logStreamReady = false then
      ⟨.ok (), ini.state, [.out logEntry] ++ ini.lines, ini.calls⟩
    else
      let putCall := RemoteCall.putLogEvents logEntry ini.state.nextSequenceToken
      match tr.putLogEvents with
      | .ok _ =>
        ⟨.ok (), ini.state, [.out logEntry] ++ ini.lines, ini.calls ++ [putCall]⟩
      | .error e =>
        let failLine := ConsoleLine.err ("[CW] Failed to send log: " ++ e.message)
        if isStaleMsg e.message then
          let st2 := { ini.state with nextSequenceToken := JsStr.null }
          match tr.describeLogStreams with
          | .ok streams =>
            let st3 :=
              match streams.logStreams with
              | some (s0 :: _) =>
                { st2 with nextSequenceToken := s0.uploadSequenceToken }
              | _ => st2
            ⟨.ok (), st3, [.out logEntry] ++ ini.lines ++ [failLine],
              ini.calls ++ [putCall, .describeLogStreams]⟩
          | .error _ =>
            ⟨.ok (), st2, [.out logEntry] ++ ini.lines ++ [failLine],
              ini.calls ++ [putCall, .describeLogStreams]⟩
        else
          ⟨.ok (), ini.state, [.out logEntry] ++ ini.lines ++ [failLine],
            ini.calls ++ [putCall]⟩

/-- Result of one putMetric call. -/
structure MetricResult where
  result : Except JsError Unit
  lines : List ConsoleLine
  calls : List RemoteCall
deriving DecidableEq, Repr

/-- putMetric from cloudWatchLogger.js: no-op when CloudWatch is
disabled; otherwise sends one datapoint whose dimension list starts
with the Environment dimension followed by the caller dimensions;
a transport failure becomes a stderr diagnostic and is swallowed. -/
def putMetric (env : Env) (tr : Transport) (metricName : String) (value : Int)
    (unit : String) (dimensions : List (String × String)) : MetricResult :=
  if cwEnabled env = false then ⟨.ok (), [], []⟩
  else
    let dims := ("Environment", env.awsEnvironment.getD "local-dev") :: dimensions
    let call := RemoteCall.putMetricData metricName value unit dims
    match tr.putMetricData with
    | .ok _ => ⟨.ok (), [], [call]⟩
    | .error e => ⟨.ok (), [.err ("[CW] Metric error: " ++ e.message)], [call]⟩

theorem initLogStream_ready (env : Env) (tr : Transport) (st : CWState)
    (hen : cwEnabled env = true) :
    (initLogStream env tr st).state.logStreamReady = true := by
  unfold initLogStream
  by_cases h : st.logStreamReady = true <;> simp [hen, h]

theorem initLogStream_no_put (env : Env) (tr : Transport) (st : CWState) :
    ((initLogStream env tr st).calls.any isPutCall) = false := by
  unfold initLogStream
  by_cases h1 : cwEnabled env = false <;> by_cases h2 : st.logStreamReady = true <;>
    simp [h1, h2, isPutCall]

theorem initLogStream_countP_put (env : Env) (tr : Transport) (st : CWState) :
    (initLogStream env tr st).calls.countP isPutCall = 0 := by
  unfold initLogStream
  by_cases h1 : cwEnabled env = false <;> by_cases h2 : st.logStreamReady = true <;>
    simp [h1, h2, isPutCall, List.countP_cons]

theorem initLogStream_countP_describe (env : Env) (tr : Transport) (st : CWState) :
    (initLogStream env tr st).calls.countP isDescribeCall = 0 := by
  unfold initLogStream
  by_cases h1 : cwEnabled env = false <;> by_cases h2 : st.logStreamReady = true <;>
    simp [h1, h2, isDescribeCall, List.countP_cons]

theorem initLogStream_no_errLine (env : Env) (tr : Transport) (st : CWState) :
    (initLogStream env tr st).lines.countP isErrLine = 0 := by
  unfold initLogStream
  by_cases h1 : cwEnabled env = false <;> by_cases h2 : st.logStreamReady = true <;>
    cases tr.createLogGroup <;> cases tr.createLogStream <;>
      simp [h1, h2, isErrLine, List.countP_cons]

theorem initLogStream_token (env : Env) (tr : Transport) (st : CWState) :
    (initLogStream env tr st).state.nextSequenceToken = st.nextSequenceToken := by
  unfold initLogStream
  by_cases h1 : cwEnabled env = false <;> by_cases h2 : st.logStreamReady = true <;>
    simp [h1, h2]

/-- Claim C9: for every enabled putMetric call, the single emitted
datapoint has the Environment dimension (value AWS_ENVIRONMENT,
default "local-dev") first, followed by the caller dimensions in their
given order. -/
theorem metric_environment_dimension_first
    (env : Env) (tr : Transport) (name : String) (value : Int) (unit : String)
    (dims : List (String × String))
    (hen : cwEnabled env = true) :
    (putMetric env tr name value unit dims).calls =
      [RemoteCall.putMetricData name value unit
        (("Environment", env.awsEnvironment.getD "local-dev") :: dims)] := by
  unfold putMetric
  cases tr.putMetricData <;> simp [hen]

/-- Concrete enabled environment used by the witnesses. -/
def envOn : Env := ⟨some "true", some "INFO", none, "stream-1"⟩

/-- A transport on which every remote operation succeeds. -/
def trOk : Transport := ⟨.ok (), .ok (), .ok (), .ok ⟨none⟩, .ok ()⟩

/-- A transport on which every remote operation raises. -/
def trFail : Transport :=
  ⟨.error ⟨"boom"⟩, .error ⟨"boom"⟩, .error ⟨"boom"⟩, .error ⟨"boom"⟩, .error ⟨"boom"⟩⟩

theorem metric_environment_dimension_first_witness :
    cwEnabled envOn = true ∧
    (putMetric envOn trOk "X" 1 "Count" [("Foo", "bar")]).calls =
      [RemoteCall.putMetricData "X" 1 "Count"
        (("Environment", envOn.awsEnvironment.getD "local-dev") :: [("Foo", "bar")])] :=
  ⟨by decide, metric_environment_dimension_first envOn trOk "X" 1 "Count"
    [("Foo", "bar")] (by decide)⟩

/-- Claim C3: a remote log write is attempted if and only if
CLOUDWATCH_ENABLED is "true" and the level is at or above the
configured minimum severity (ERROR above WARN above INFO above DEBUG,
default minimum INFO). -/
theorem remote_shipment_gated
    (env : Env) (tr : Transport) (now : String) (st : CWState) (level : LogLevel)
    (message : String) (metadata : Obj) (m : LogLevel)
    (hm : env.logLevel.getD "INFO" = levelName m) :
    ((logToCloudWatch env tr now st level message metadata).calls.any isPutCall) =
      (cwEnabled env && decide (levNum level ≤ levNum m)) := by
  by_cases hen : cwEnabled env = false
  · simp [logToCloudWatch, hen]
  · have hen2 : cwEnabled env = true := by revert hen; cases cwEnabled env <;> simp
    simp only [logToCloudWatch, hen2, hm, levelsVal_levelName, jsGtNat]
    by_cases hlt : levNum m < levNum level
    · have hnle : ¬ (levNum level ≤ levNum m) := by omega
      simp [hlt, hnle]
    · have hle : levNum level ≤ levNum m := by omega
      by_cases hready : st.logStreamReady = false
      · cases hput : tr.putLogEvents with
        | ok v =>
          simp [hlt, hle, hready, initLogStream_ready env tr st hen2, hput,
            List.any_append, isPutCall]
        | error e =>
          by_cases hst : isStaleMsg e.message = true
          · cases hds : tr.describeLogStreams with
            | ok streams =>
              simp [hlt, hle, hready, initLogStream_ready env tr st hen2, hput,
                hst, hds, List.any_append, isPutCall]
            | error e2 =>
              simp [hlt, hle, hready, initLogStream_ready env tr st hen2, hput,
                hst, hds, List.any_append, isPutCall]
          · simp [hlt, hle, hready, initLogStream_ready env tr st hen2, hput,
              hst, List.any_append, isPutCall]
      · have hr2 : st.logStreamReady = true := by
          revert hready; cases st.logStreamReady <;> simp
        cases hput : tr.putLogEvents with
        | ok v => simp [hlt, hle, hr2, hput, List.any_append, isPutCall]
        | error e =>
          by_cases hst : isStaleMsg e.message = true
          · cases hds : tr.describeLogStreams with
            | ok streams =>
              simp [hlt, hle, hr2, hput, hst, hds, List.any_append, isPutCall]
            | error e2 =>
              simp [hlt, hle, hr2, hput, hst, hds, List.any_append, isPutCall]
          · simp [hlt, hle, hr2, hput, hst, List.any_append, isPutCall]

theorem remote_shipment_gated_witness :
    (envOn.logLevel.getD "INFO" = levelName LogLevel.INFO) ∧
    ((logToCloudWatch envOn trOk "T" initialCWState .DEBUG "m" []).calls.any isPutCall) =
      (cwEnabled envOn && decide (levNum .DEBUG ≤ levNum LogLevel.INFO)) :=
  ⟨by decide, remote_shipment_gated envOn trOk "T" initialCWState .DEBUG "m" []
    LogLevel.INFO (by decide)⟩

theorem isErr_eq {α : Type} {x : Except JsError α} (h : isErr x = true) :
    ∃ e, x = Except.error e := by
  cases x with
  | error e => exact ⟨e, rfl⟩
  | ok v => simp [isErr] at h

theorem logToCloudWatch_ok (env : Env) (tr : Transport) (now : String)
    (st : CWState) (level : LogLevel) (message : String) (metadata : Obj) :
    (logToCloudWatch env tr now st level message metadata).result = .ok () := by
  unfold logToCloudWatch
  repeat' (first | rfl | dsimp only | split)

theorem putMetric_ok (env : Env) (tr : Transport) (name : String) (value : Int)
    (unit : String) (dims : List (String × String)) :
    (putMetric env tr name value unit dims).result = .ok () := by
  unfold putMetric
  by_cases h : cwEnabled env = false <;> cases hm : tr.putMetricData <;> simp [h, hm]

/-- Claim C1: no exception or error result ever propagates to the
caller of logToCloudWatch or putMetric, even when every remote
transport operation raises; the failure becomes one local stderr
diagnostic line and the call returns normally. -/
theorem transport_failures_swallowed
    (env : Env) (tr : Transport) (now : String) (st : CWState) (level : LogLevel)
    (message : String) (metadata : Obj) (name : String) (value : Int)
    (unit : String) (dims : List (String × String))
    (hfail : failsAll tr = true) (hen : cwEnabled env = true) :
    (logToCloudWatch env tr now st level message metadata).result = .ok () ∧
    (putMetric env tr name value unit dims).result = .ok () ∧
    (putMetric env tr name value unit dims).lines.countP isErrLine = 1 ∧
    (logToCloudWatch env tr now st .ERROR message metadata).lines.countP isErrLine = 1 := by
  have hf := hfail
  simp only [failsAll, Bool.and_eq_true] at hf
  obtain ⟨⟨⟨⟨hcg, hcs⟩, hpl⟩, hds⟩, hpm⟩ := hf
  obtain ⟨e3, hput⟩ := isErr_eq hpl
  obtain ⟨e4, hdesc⟩ := isErr_eq hds
  obtain ⟨e5, hmet⟩ := isErr_eq hpm
  refine ⟨logToCloudWatch_ok env tr now st level message metadata,
    putMetric_ok env tr name value unit dims, ?_, ?_⟩
  · unfold putMetric
    simp [hen, hmet, isErrLine, List.countP_cons]
  · have hship : jsGtNat (levelsVal (levelName LogLevel.ERROR))
        (levelsVal (env.logLevel.getD "INFO")) = false := by
      rw [levelsVal_levelName]
      exact jsGtNat_err _
    by_cases hready : st.logStreamReady = false
    · by_cases hst : isStaleMsg e3.message = true
      · simp [logToCloudWatch, hen, hship, hready, initLogStream_ready env tr st hen,
          hput, hst, hdesc, List.countP_append, List.countP_cons, isErrLine,
          initLogStream_no_errLine]
      · simp [logToCloudWatch, hen, hship, hready, initLogStream_ready env tr st hen,
          hput, hst, List.countP_append, List.countP_cons, isErrLine,
          initLogStream_no_errLine]
    · have hr2 : st.logStreamReady = true := by
        revert hready; cases st.logStreamReady <;> simp
      by_cases hst : isStaleMsg e3.message = true
      · simp [logToCloudWatch, hen, hship, hr2, hput, hst, hdesc,
          List.countP_append, List.countP_cons, isErrLine]
      · simp [logToCloudWatch, hen, hship, hr2, hput, hst,
          List.countP_append, List.countP_cons, isErrLine]

theorem transport_failures_swallowed_witness :
    failsAll trFail = true ∧ cwEnabled envOn = true ∧
    ((logToCloudWatch envOn trFail "T" initialCWState .INFO "hello" []).result = .ok () ∧
     (putMetric envOn trFail "X" 1 "Count" []).result = .ok () ∧
     (putMetric envOn trFail "X" 1 "Count" []).lines.countP isErrLine = 1 ∧
     (logToCloudWatch envOn trFail "T" initialCWState .ERROR "hello" []).lines.countP isErrLine = 1) :=
  ⟨by decide, by decide, transport_failures_swallowed envOn trFail "T"
    initialCWState .INFO "hello" [] "X" 1 "Count" [] (by decide) (by decide)⟩

/-- Claim C4: on a stale-sequence-token failure the emitter clears the
cached token, queries the stream descriptor exactly once and adopts the
returned token, does not re-send the record (exactly one PutLogEvents
attempt), and returns normally. -/
theorem stale_token_single_refetch
    (env : Env) (tr : Transport) (now : String) (st : CWState) (level : LogLevel)
    (message : String) (metadata : Obj) (e : JsError) (tok : JsStr)
    (hen : cwEnabled env = true)
    (hship : jsGtNat (levelsVal (levelName level)) (levelsVal (env.logLevel.getD "INFO")) = false)
    (hput : tr.putLogEvents = .error e)
    (hstale : isStaleMsg e.message = true)
    (hdesc : tr.describeLogStreams = .ok ⟨some [⟨tok⟩]⟩) :
    (logToCloudWatch env tr now st level message metadata).result = .ok () ∧
    (logToCloudWatch env tr now st level message metadata).calls.countP isDescribeCall = 1 ∧
    (logToCloudWatch env tr now st level message metadata).calls.countP isPutCall = 1 ∧
    (logToCloudWatch env tr now st level message metadata).state.nextSequenceToken = tok := by
  by_cases hready : st.logStreamReady = false
  · refine ⟨logToCloudWatch_ok env tr now st level message metadata, ?_, ?_, ?_⟩ <;>
      simp [logToCloudWatch, hen, hship, hready, initLogStream_ready env tr st hen,
        hput, hstale, hdesc, List.countP_append, List.countP_cons,
        isDescribeCall, isPutCall, initLogStream_countP_put,
        initLogStream_countP_describe]
  · have hr2 : st.logStreamReady = true := by
      revert hready; cases st.logStreamReady <;> simp
    refine ⟨logToCloudWatch_ok env tr now st level message metadata, ?_, ?_, ?_⟩ <;>
      simp [logToCloudWatch, hen, hship, hr2, hput, hstale, hdesc,
        List.countP_append, List.countP_cons, isDescribeCall, isPutCall]

/-- A transport whose log append fails with a stale sequence token and
whose stream query succeeds. -/
def trStale : Transport :=
  ⟨.ok (), .ok (), .error ⟨"InvalidSequenceTokenException: expected 42"⟩,
    .ok ⟨some [⟨.str "TOK2"⟩]⟩, .ok ()⟩

theorem stale_token_single_refetch_witness :
    cwEnabled envOn = true ∧
    jsGtNat (levelsVal (levelName LogLevel.ERROR)) (levelsVal (envOn.logLevel.getD "INFO")) = false ∧
    trStale.putLogEvents = .error ⟨"InvalidSequenceTokenException: expected 42"⟩ ∧
    isStaleMsg "InvalidSequenceTokenException: expected 42" = true ∧
    trStale.describeLogStreams = .ok ⟨some [⟨.str "TOK2"⟩]⟩ ∧
    ((logToCloudWatch envOn trStale "T" ⟨true, .str "TOK1"⟩ .ERROR "m" []).result = .ok () ∧
     (logToCloudWatch envOn trStale "T" ⟨true, .str "TOK1"⟩ .ERROR "m" []).calls.countP isDescribeCall = 1 ∧
     (logToCloudWatch envOn trStale "T" ⟨true, .str "TOK1"⟩ .ERROR "m" []).calls.countP isPutCall = 1 ∧
     (logToCloudWatch envOn trStale "T" ⟨true, .str "TOK1"⟩ .ERROR "m" []).state.nextSequenceToken = .str "TOK2") :=
  ⟨by decide, by decide, by decide, by decide, by decide,
    stale_token_single_refetch envOn trStale "T" ⟨true, .str "TOK1"⟩ .ERROR "m" []
      ⟨"InvalidSequenceTokenException: expected 42"⟩ (.str "TOK2")
      (by decide) (by decide) (by decide) (by decide) (by decide)⟩

theorem initLogStream_outTexts (env : Env) (tr : Transport) (st : CWState) :
    ∀ l ∈ outTexts (initLogStream env tr st).lines,
      l = "[CW] Created log group: " ++ LOG_GROUP_NAME ∨
      l = "[CW] Created log stream: " ++ env.logStreamName := by
  unfold initLogStream
  by_cases h1 : cwEnabled env = false <;> by_cases h2 : st.logStreamReady = true <;>
    cases tr.createLogGroup <;> cases tr.createLogStream <;>
      simp [h1, h2, outTexts]

/-- A disabled environment. -/
def envOff : Env := ⟨none, none, none, "stream-1"⟩

/-- Claim C2 counterexample: with the correlation id set in the context
store, a logToCloudWatch call still emits a console line that does not
contain it — logToCloudWatch never consults the store. -/
theorem console_line_misses_ambient_correlation_id :
    truthy (getCorrelationId (setCorrelationId initialStore (.str "CID-777"))) = true ∧
    (logToCloudWatch envOff trOk "2024-01-01T00:00:00.000Z" initialCWState
        .INFO "hello" []).lines =
      [ConsoleLine.out (jsonStringify
        (consoleLogObj "2024-01-01T00:00:00.000Z" .INFO "hello" []))] ∧
    containsSub "hello" (jsonStringify
      (consoleLogObj "2024-01-01T00:00:00.000Z" .INFO "hello" [])) = true ∧
    containsSub "CID-777" (jsonStringify
      (consoleLogObj "2024-01-01T00:00:00.000Z" .INFO "hello" [])) = false := by
  decide

/-- Claim C2 (amended): every logToCloudWatch call writes the JSON
record as the first stdout line, any further stdout lines are the two
stream-initialization diagnostics; the record carries the caller
message (unless metadata overrides the message key) and carries a
correlationId exactly when the caller metadata does — the context
store is not consulted. -/
theorem console_record_line_per_call
    (env : Env) (tr : Transport) (now : String) (st : CWState) (level : LogLevel)
    (message : String) (metadata : Obj) :
    (∃ rest,
      outTexts (logToCloudWatch env tr now st level message metadata).lines =
        jsonStringify (consoleLogObj now level message metadata) :: rest ∧
      ∀ l ∈ rest,
        l = "[CW] Created log group: " ++ LOG_GROUP_NAME ∨
        l = "[CW] Created log stream: " ++ env.logStreamName) ∧
    jsGet (consoleLogObj now level message metadata) "message" =
      (match jsGet metadata "message" with
       | some v => some v
       | none => some (.str message)) ∧
    jsGet (consoleLogObj now level message metadata) "correlationId" =
      jsGet metadata "correlationId" := by
  refine ⟨?_, ?_, ?_⟩
  · by_cases hen : cwEnabled env = false
    · exact ⟨[], by simp [logToCloudWatch, hen, outTexts], by simp⟩
    · have hen2 : cwEnabled env = true := by revert hen; cases cwEnabled env <;> simp
      by_cases hsk : jsGtNat (levelsVal (levelName level))
          (levelsVal (env.logLevel.getD "INFO")) = true
      · exact ⟨[], by simp [logToCloudWatch, hen2, hsk, outTexts], by simp⟩
      · have hsk2 : jsGtNat (levelsVal (levelName level))
            (levelsVal (env.logLevel.getD "INFO")) = false := by
          revert hsk
          cases jsGtNat (levelsVal (levelName level)) (levelsVal (env.logLevel.getD "INFO")) <;>
            simp
        by_cases hready : st.logStreamReady = false
        · refine ⟨outTexts (initLogStream env tr st).lines, ?_,
            initLogStream_outTexts env tr st⟩
          cases hput : tr.putLogEvents with
          | ok v =>
            simp [logToCloudWatch, hen2, hsk2, hready,
              initLogStream_ready env tr st hen2, hput, outTexts,
              List.filterMap_append]
          | error e =>
            by_cases hst : isStaleMsg e.message = true
            · cases hds : tr.describeLogStreams with
              | ok streams =>
                simp [logToCloudWatch, hen2, hsk2, hready,
                  initLogStream_ready env tr st hen2, hput, hst, hds, outTexts,
                  List.filterMap_append]
              | error e2 =>
                simp [logToCloudWatch, hen2, hsk2, hready,
                  initLogStream_ready env tr st hen2, hput, hst, hds, outTexts,
                  List.filterMap_append]
            · simp [logToCloudWatch, hen2, hsk2, hready,
                initLogStream_ready env tr st hen2, hput, hst, outTexts,
                List.filterMap_append]
        · have hr2 : st.logStreamReady = true := by
            revert hready; cases st.logStreamReady <;> simp
          refine ⟨[], ?_, by simp⟩
          cases hput : tr.putLogEvents with
          | ok v => simp [logToCloudWatch, hen2, hsk2, hr2, hput, outTexts,
              List.filterMap_append]
          | error e =>
            by_cases hst : isStaleMsg e.message = true
            · cases hds : tr.describeLogStreams with
              | ok streams =>
                simp [logToCloudWatch, hen2, hsk2, hr2, hput, hst, hds, outTexts,
                  List.filterMap_append]
              | error e2 =>
                simp [logToCloudWatch, hen2, hsk2, hr2, hput, hst, hds, outTexts,
                  List.filterMap_append]
            · simp [logToCloudWatch, hen2, hsk2, hr2, hput, hst, outTexts,
                List.filterMap_append]
  · simp only [consoleLogObj, jsGet_append]
    cases jsGet metadata "message" <;> simp [jsGet]
  · simp only [consoleLogObj, jsGet_append]
    cases jsGet metadata "correlationId" <;> simp [jsGet]

/-- Claim C5 counterexample: with the correlation id unset (null, the
module-load value), contextFormat still writes the correlationId field,
as a null placeholder, and the placeholder survives into the JSON
rendering. -/
theorem correlation_null_placeholder :
    getCorrelationId initialStore = JsStr.null ∧
    jsGet (contextFormat initialStore "2024-01-01T00:00:00.000Z" [])
      "correlationId" = some JsStr.null ∧
    presentInJson (contextFormat initialStore "2024-01-01T00:00:00.000Z" [])
      "correlationId" = true := by
  decide

/-- Claim C5 (amended): requestId and userId are written onto the
record exactly when truthy in the ExecutionContext at emission time,
but correlationId is always written, carrying the current store value
(a null or undefined placeholder when unset); none of the three is
backfilled afterwards. -/
theorem correlation_field_always_written (store : Store) (now : String) (info : Obj) :
    jsGet (contextFormat store now info) "correlationId" = some store.correlationId ∧
    jsGet (contextFormat store now info) "requestId" =
      (if truthy store.requestId then some store.requestId else jsGet info "requestId") ∧
    jsGet (contextFormat store now info) "userId" =
      (if truthy store.userId then some store.userId else jsGet info "userId") :=
  ⟨contextFormat_correlationId store now info,
   contextFormat_requestId store now info,
   contextFormat_userId store now info⟩

/-- messageFormatter of the winston CloudWatch transport
(cloudWatchLogger.js): builds the remote JSON object with timestamp,
level, message, a correlationId that prefers a truthy meta value over
the ambient one, then spreads meta last. -/
def messageFormatterObj (store : Store) (now level message : String)
    (meta : Option Obj) : Obj :=
  [("timestamp", .str now), ("level", .str level), ("message", .str message),
   ("correlationId",
     match meta with
     | some m =>
       if truthy (jsIdx m "correlationId") then jsIdx m "correlationId"
       else store.correlationId
     | none => store.correlationId)]
  ++ meta.getD []

/-- The JSON string messageFormatter returns. -/
def messageFormatter (store : Store) (now level message : String)
    (meta : Option Obj) : String :=
  jsonStringify (messageFormatterObj store now level message meta)

/-- Claim C6 counterexample: with ambient correlation id AMB, a caller
metadata value CALLER for correlationId does not appear on the record
built by contextFormat — the ambient value overwrites it. -/
theorem caller_correlation_overridden :
    jsGet (contextFormat (setCorrelationId initialStore (.str "AMB")) "T"
      [("correlationId", JsStr.str "CALLER")]) "correlationId" =
        some (JsStr.str "AMB") ∧
    jsGet (contextFormat (setCorrelationId initialStore (.str "AMB")) "T"
      [("correlationId", JsStr.str "CALLER")]) "correlationId" ≠
        some (JsStr.str "CALLER") := by
  decide

/-- Claim C6 (amended): in the winston record built by contextFormat
the ambient correlation id always overwrites any caller-supplied value
(so the same ambient value is read again on every subsequent call); in
the CloudWatch transport messageFormatter the caller meta value for
correlationId, when present, wins over the ambient one. -/
theorem correlation_override_resolution (store : Store)
    (now now2 level msg : String) (info m : Obj) :
    jsGet (contextFormat store now info) "correlationId" = some store.correlationId ∧
    jsGet (messageFormatterObj store now2 level msg (some m)) "correlationId" =
      (match jsGet m "correlationId" with
       | some v => some v
       | none => some store.correlationId) := by
  refine ⟨contextFormat_correlationId store now info, ?_⟩
  simp only [messageFormatterObj, Option.getD, jsGet_append]
  cases h : jsGet m "correlationId" with
  | some v => simp [h]
  | none => simp [h, jsIdx, truthy, jsGet]

/-- getBaseMetadata of StructuredLogger (structuredLogger.js): the
facade service name, the three ambient context reads and a fresh
timestamp. -/
def getBaseMetadata (store : Store) (service : String) (now : String) : Obj :=
  [("service", .str service), ("correlationId", getCorrelationId store),
   ("requestId", getRequestId store), ("userId", getUserId store),
   ("timestamp", .str now)]

/-- The metadata object StructuredLogger.info/warn/debug pass to
logger: base metadata spread first, caller metadata spread last. -/
def structuredLogMeta (store : Store) (service : String) (now : String)
    (metadata : Obj) : Obj :=
  getBaseMetadata store service now ++ metadata

/-- Claim C7 counterexample: caller metadata with a service key
overrides the facade name in the merged metadata, so service is not
always the facade's own. -/
theorem service_field_overridden_by_caller :
    jsGet (structuredLogMeta initialStore "payment-service" "T"
      [("service", JsStr.str "other")]) "service" = some (JsStr.str "other") ∧
    jsGet (structuredLogMeta initialStore "payment-service" "T"
      [("service", JsStr.str "other")]) "service" ≠
        some (JsStr.str "payment-service") := by
  decide

/-- Claim C7 (amended): the facade merges the base metadata
(service, correlationId, requestId, userId, timestamp) before the
caller metadata, and caller fields win on every collision — including
the service key, which has no special protection. -/
theorem structured_merge_caller_wins (store : Store) (service now : String)
    (metadata : Obj) :
    jsGet (getBaseMetadata store service now) "service" = some (.str service) ∧
    jsGet (getBaseMetadata store service now) "correlationId" =
      some (getCorrelationId store) ∧
    jsGet (getBaseMetadata store service now) "requestId" =
      some (getRequestId store) ∧
    jsGet (getBaseMetadata store service now) "userId" = some (getUserId store) ∧
    ∀ k, jsGet (structuredLogMeta store service now metadata) k =
      (match jsGet metadata k with
       | some v => some v
       | none => jsGet (getBaseMetadata store service now) k) := by
  refine ⟨by simp [getBaseMetadata, jsGet], by simp [getBaseMetadata, jsGet],
    by simp [getBaseMetadata, jsGet], by simp [getBaseMetadata, jsGet], ?_⟩
  intro k
  simp [structuredLogMeta, jsGet_append]

/-- The request fields httpLoggingMiddleware reads. -/
structure ReqInfo where
  id : JsStr
  headerCorrelationId : JsStr
deriving DecidableEq, Repr

/-- JavaScript logical-or restricted to JsStr values. -/
def jsOr (a b : JsStr) : JsStr :=
  if truthy a then a else b

/-- The context-store update of httpLoggingMiddleware (part_003):
requestId = request.id or a fresh uuid, correlationId = the
x-correlation-id header or a fresh uuid, then setRequestId and
setCorrelationId.  The fresh uuidv4() values are passed as arguments. -/
def httpLoggingMiddlewareStore (store : Store) (req : ReqInfo)
    (freshRequestUuid freshCorrelationUuid : String) : Store :=
  let requestId := jsOr req.id (.str freshRequestUuid)
  let correlationId := jsOr req.headerCorrelationId (.str freshCorrelationUuid)
  setCorrelationId (setRequestId store requestId) correlationId

/-- Claim C8 (code evidence): on a request with no x-correlation-id
header, httpLoggingMiddleware stores a freshly generated uuid as the
correlation id — a fabricated identifier disconnected from upstream,
contradicting the mandated never-fabricate-downstream contract. -/
theorem middleware_fabricates_correlation_id :
    (⟨JsStr.str "req-7", JsStr.undef⟩ : ReqInfo).headerCorrelationId = JsStr.undef ∧
    getCorrelationId (httpLoggingMiddlewareStore initialStore
      ⟨.str "req-7", .undef⟩ "11111111-1111-4111-8111-111111111111"
      "22222222-2222-4222-8222-222222222222") =
      JsStr.str "22222222-2222-4222-8222-222222222222" ∧
    truthy (getCorrelationId (httpLoggingMiddlewareStore initialStore
      ⟨.str "req-7", .undef⟩ "11111111-1111-4111-8111-111111111111"
      "22222222-2222-4222-8222-222222222222")) = true := by
  decide

/-- The preHandler hook of mock-backend/server.js: read the
x-correlation-id header, warn when it is falsy, store it on the context
store unconditionally, and mirror it on the request object.  Returns
the new store, the warn emissions, and request.correlationId. -/
def preHandler (store : Store) (headerCorrelationId : JsStr) :
    Store × List (String × String) × JsStr :=
  let warns := if truthy headerCorrelationId then []
    else [("warn", "Missing correlation ID in Mock Backend request")]
  (setCorrelationId store headerCorrelationId, warns, headerCorrelationId)

/-- Claim C10: a headerless request makes preHandler warn and still
call setCorrelationId with the absent value, clearing whatever
correlation id a previous request left; afterwards getCorrelationId is
unset and a subsequent log record carries no correlation id in its
JSON rendering. -/
theorem prehandler_clears_correlation_id (store : Store) (now : String) :
    (preHandler store JsStr.undef).1 = setCorrelationId store JsStr.undef ∧
    getCorrelationId (preHandler store JsStr.undef).1 = JsStr.undef ∧
    truthy (getCorrelationId (preHandler store JsStr.undef).1) = false ∧
    (preHandler store JsStr.undef).2.1 =
      [("warn", "Missing correlation ID in Mock Backend request")] ∧
    presentInJson (contextFormat (preHandler store JsStr.undef).1 now [])
      "correlationId" = false := by
  refine ⟨rfl, rfl, rfl, rfl, ?_⟩
  have h := contextFormat_correlationId (setCorrelationId store JsStr.undef) now []
  simp [setCorrelationId] at h
  simp [preHandler, presentInJson, setCorrelationId, h]

end PocObs
